import Mathlib

/-!
Shallow embedding of `src/album_art.rs` from mpd-discord-rpc-yaya.

The module resolves a front-cover URL for a playing track: it derives a cache
key from the song's tags, consults an in-memory cache, otherwise queries
MusicBrainz (by explicit release id, or by artist/album search), probes the
Cover Art Archive for the image, and on failure queues a pending entry
(best-effort ffmpeg extraction plus a JSON sidecar) on the filesystem.

Network, filesystem and process effects are modelled by an explicit
environment `Env`; every function additionally returns the list of external
events (`Event`) it performed, so "performs no network call" and
"never invokes the queue" are statements about that trace.
-/

/-- The subset of MPD tags read by `album_art.rs`
(`mpd_client::tag::Tag` variants that occur in the file). -/
inductive Tag
  | Artist
  | AlbumArtist
  | Album
  | Title
  | Track
  | Date
  | MusicBrainzReleaseId
deriving DecidableEq, Repr

/-- `mpd_client::responses::Song`, restricted to the fields `album_art.rs`
reads: the tag map (`HashMap<Tag, Vec<String>>`, so a present tag carries a
list of values), the relative file url, and the optional duration
(modelled in whole seconds, as the code only calls `as_secs`). -/
structure Song where
  tags : Tag → Option (List String)
  url : String
  duration : Option Nat

/-- Modelled from the spec: `try_get_first_tag` lives in `mpd_conn.rs`, which
is not part of the provided sources. Per the spec's data model each tag is an
optional string field of TrackMetadata: the helper yields the first value of
the tag when the tag is present and non-empty. -/
def try_get_first_tag (o : Option (List String)) : Option String :=
  o.bind List.head?

/-- `enum Type { Release, ReleaseGroup }` from the source (renamed, since
`Type` is reserved in Lean). -/
inductive RecordType
  | Release
  | ReleaseGroup
deriving DecidableEq, Repr

/-- The `Display` impl for `Type`: the URL path segment of each kind. -/
def recordTypeStr : RecordType → String
  | RecordType.Release => "release"
  | RecordType.ReleaseGroup => "release-group"

/-- `struct ReleaseGroup { id }` (deserialized MusicBrainz payload). -/
structure ReleaseGroup where
  id : String
deriving DecidableEq, Repr

/-- `struct ReleaseCoverArt { front: bool }`. -/
structure ReleaseCoverArt where
  front : Bool
deriving DecidableEq, Repr

/-- `struct Release { id, release_group, cover_art_archive }`. -/
structure Release where
  id : String
  release_group : ReleaseGroup
  cover_art_archive : ReleaseCoverArt
deriving DecidableEq, Repr

/-- `struct SearchResult { release_groups: Vec<ReleaseGroup> }`. -/
structure SearchResult where
  release_groups : List ReleaseGroup
deriving DecidableEq, Repr

/-- `const MUSIC_ROOT`. -/
def MUSIC_ROOT : String := "/mnt/main/Music"

/-- `const PENDING_MB_QUEUE_DIR`. -/
def PENDING_MB_QUEUE_DIR : String := "/home/Yaya/.local/share/mpd-rpc/pending_covers"

/-- Rust's `char::is_whitespace`: the Unicode White_Space property
(PropList.txt of the Unicode character database), enumerated — ASCII
space/tab/LF/VT/FF/CR, NEL (U+0085), NBSP (U+00A0), Ogham space mark
(U+1680), the U+2000..U+200A spaces, line and paragraph separators
(U+2028, U+2029), narrow no-break space (U+202F), medium mathematical
space (U+205F) and ideographic space (U+3000). Lean's own
`Char.isWhitespace` covers only space/tab/CR/LF and would be unfaithful
to the source. -/
def rust_is_whitespace (c : Char) : Bool :=
  c == ' ' || c == '\t' || c == '\n' || c == '\u000B' || c == '\u000C' || c == '\r' ||
  c == '\u0085' || c == '\u00A0' || c == '\u1680' ||
  (0x2000 ≤ c.toNat && c.toNat ≤ 0x200A) ||
  c == '\u2028' || c == '\u2029' || c == '\u202F' || c == '\u205F' || c == '\u3000'

/-- The loop body of `fn sanitize_for_filename`: keep an ASCII alphanumeric,
turn a Unicode-whitespace, hyphen or underscore character into an
underscore, drop the rest. -/
def sanitize_step (out : String) (c : Char) : String :=
  if c.isAlphanum then out.push c
  else if rust_is_whitespace c || c == '-' || c == '_' then out.push '_'
  else out

/-- `fn sanitize_for_filename`, the character iteration only (the loop
before the emptiness check). -/
def sanitize_core (s : String) : String :=
  s.data.foldl sanitize_step ""

/-- `fn sanitize_for_filename`: ASCII alphanumerics pass through, whitespace,
hyphen and underscore become an underscore, everything else is dropped; an
empty result becomes the token "unknown". -/
def sanitize_for_filename (s : String) : String :=
  let out := sanitize_core s
  if out.isEmpty then "unknown" else out

/-- Follows the spec's words (for comparison with `sanitize_core`): the
per-character mapping of the Sanitizer — alphanumerics kept, whitespace
(the source's Unicode White_Space class), hyphen and underscore mapped to
underscore, the rest dropped. -/
def sanitize_char_spec (c : Char) : Option Char :=
  if c.isAlphanum then some c
  else if rust_is_whitespace c || c == '-' || c == '_' then some '_'
  else none

/-- `AlbumArtClient::get_cache_key`: prefer the album-artist tag over the
artist tag; require an album; otherwise there is no key. -/
def get_cache_key (song : Song) : Option (String × String) :=
  let artist := (try_get_first_tag (song.tags Tag.AlbumArtist)).or
    (try_get_first_tag (song.tags Tag.Artist))
  let album := try_get_first_tag (song.tags Tag.Album)
  match artist, album with
  | some a, some b => some (a, b)
  | _, _ => none

/-- External events performed by the client, in order: the MusicBrainz
release lookup (GET /ws/2/release/{id}), the MusicBrainz release-group
search (GET /ws/2/release-group/?query=...), the Cover Art Archive HEAD
existence probe, entry into `queue_missing_mb_entry` (recording the `mbid`
and `reason` arguments it was invoked with), and an ffmpeg extraction run
(recording the audio source and jpg destination paths). -/
inductive Event
  | lookup (releaseId : String)
  | search (artist album : String)
  | probe (url : String)
  | queueCall (mbid : Option String) (reason : String)
  | ffmpegRun (audioPath jpgPath : String)
deriving DecidableEq, Repr

/-- One entry of the JSON sidecar written by `queue_missing_mb_entry`
(the `json!` object, with `added_at` taken from the environment clock). -/
structure Sidecar where
  reason : String
  mbid : Option String
  artist : String
  album : String
  title : String
  trackno : String
  date : String
  duration_secs : Nat
  source_path : String
  added_at : String
deriving DecidableEq, Repr

/-- Contents of a file in the pending-queue directory: either the extracted
cover image or a JSON sidecar. -/
inductive FileData
  | image
  | sidecar (s : Sidecar)
deriving DecidableEq, Repr

/-- The filesystem state visible to the code: the files that exist, by path. -/
abbrev Fs := List (String × FileData)

/-- `Path::exists` on the modelled filesystem. -/
def fsHas (fs : Fs) (p : String) : Bool :=
  fs.any (fun e => e.1 == p)

/-- `fs::write` (create or overwrite) on the modelled filesystem. -/
def fsWrite (fs : Fs) (p : String) (d : FileData) : Fs :=
  (p, d) :: fs.filter (fun e => e.1 != p)

/-- Read a file's content from the modelled filesystem. -/
def fsFind (fs : Fs) (p : String) : Option FileData :=
  (fs.find? (fun e => e.1 == p)).map Prod.snd

/-- The in-memory `release_group_cache : HashMap<(String, String), (String, Type)>`,
modelled as an association list with unique keys. -/
abbrev Cache := List ((String × String) × (String × RecordType))

/-- `HashMap::get`-style lookup. -/
def cacheFind (c : Cache) (k : String × String) : Option (String × RecordType) :=
  (c.find? (fun e => e.1 == k)).map Prod.snd

/-- Key removal (the state left behind by `HashMap::remove`). -/
def cacheErase (c : Cache) (k : String × String) : Cache :=
  c.filter (fun e => e.1 != k)

/-- `HashMap::insert`: unconditional overwrite. -/
def cacheInsert (c : Cache) (k : String × String) (v : String × RecordType) : Cache :=
  (k, v) :: cacheErase c k

/-- 2xx, as decided by `reqwest::StatusCode::is_success`. -/
def statusIsSuccess (s : Nat) : Bool :=
  200 ≤ s && s < 300

/-- The world outside the client. Each HTTP exchange is a function of the
request: `none` is a connection error, otherwise a status code and (for GET
requests) the result of deserializing the body (`none` = malformed payload).
`mkdirOk`/`writeOk` say whether `fs::create_dir_all` and `fs::write`
succeed, `ffmpegOk`/`ffmpegProduced` (keyed by the jpg destination path) say
whether the ffmpeg process exits successfully and whether the destination
file exists afterwards, and `now` is the RFC 3339 timestamp of the clock. -/
structure Env where
  lookupResp : String → Option (Nat × Option Release)
  searchResp : String → String → Option (Nat × Option SearchResult)
  probeResp : String → Option Nat
  mkdirOk : Bool
  writeOk : Bool
  ffmpegOk : String → Bool
  ffmpegProduced : String → Bool
  now : String

/-- `AlbumArtClient::get_record_id`: GET the release by id with its
release-group; on a 200 response, deserialize and pick the release itself
when `cover_art_archive.front` is set, else its release-group; anything
else (connection error, non-200 status, malformed body) is `none`. -/
def get_record_id (env : Env) (release_id : String) :
    Option (String × RecordType) × List Event :=
  (match env.lookupResp release_id with
    | some (status, body) =>
      if status == 200 then
        body.map (fun release =>
          if release.cover_art_archive.front then (release.id, RecordType.Release)
          else (release.release_group.id, RecordType.ReleaseGroup))
      else none
    | none => none,
   [Event.lookup release_id])

/-- `AlbumArtClient::find_release_group_id`: search release-groups by artist
and album with limit 1. A connection error or a non-200 status is
`Except.ok none`; a 200 response that fails to deserialize hits the
`.expect(...)` and aborts (modelled as `Except.error` with the panic
message); otherwise `Vec::pop` takes the last (sole) result. -/
def find_release_group_id (env : Env) (artist album : String) :
    Except String (Option String) × List Event :=
  (match env.searchResp artist album with
    | some (status, body) =>
      if status != 200 then Except.ok none
      else
        match body with
        | some result => Except.ok ((result.release_groups.getLast?).map ReleaseGroup.id)
        | none => Except.error "Received response from MusicBrainz in unexpected format"
    | none => Except.ok none,
   [Event.search artist album])

/-- The absolute audio path: `Path::new(MUSIC_ROOT).join(&song.url)`. -/
def audio_path (song : Song) : String :=
  MUSIC_ROOT ++ "/" ++ song.url

/-- The deduplication key computed inside `queue_missing_mb_entry`: the mbid
verbatim when present, else `nombid_<sanitized artist>_<sanitized title>`
where artist and title are the song's plain Artist and Title tags defaulted
to the empty string. -/
def queue_key (song : Song) (mbid : Option String) : String :=
  match mbid with
  | some m => m
  | none =>
    let a := sanitize_for_filename ((try_get_first_tag (song.tags Tag.Artist)).getD "")
    let t := sanitize_for_filename ((try_get_first_tag (song.tags Tag.Title)).getD "")
    "nombid_" ++ a ++ "_" ++ t

/-- `base_dir.join(format!("{key}.jpg"))`. -/
def jpg_path (song : Song) (mbid : Option String) : String :=
  PENDING_MB_QUEUE_DIR ++ "/" ++ queue_key song mbid ++ ".jpg"

/-- `base_dir.join(format!("{key}.json"))`. -/
def json_path (song : Song) (mbid : Option String) : String :=
  PENDING_MB_QUEUE_DIR ++ "/" ++ queue_key song mbid ++ ".json"

/-- `fn queue_missing_mb_entry`. Control flow of the source: create the
queue directory (on failure: return); compute the key and the jpg/json
paths; if either file exists, return (dedup no-op); run ffmpeg to extract
embedded art into the jpg path, keeping the file only when the process
succeeded and the file exists (otherwise any partial file is removed);
always write the JSON sidecar (when `fs::write` succeeds). Returns the new
filesystem and the trace: entry into the function is recorded as
`Event.queueCall mbid reason`, a spawned extraction as `Event.ffmpegRun`. -/
def queue_missing_mb_entry (env : Env) (fs : Fs) (song : Song)
    (mbid : Option String) (reason : String) : Fs × List Event :=
  if !env.mkdirOk then (fs, [Event.queueCall mbid reason])
  else
    let artist := (try_get_first_tag (song.tags Tag.Artist)).getD ""
    let album := (try_get_first_tag (song.tags Tag.Album)).getD ""
    let title := (try_get_first_tag (song.tags Tag.Title)).getD ""
    let trackno := (try_get_first_tag (song.tags Tag.Track)).getD ""
    let date := (try_get_first_tag (song.tags Tag.Date)).getD ""
    let jpgP := jpg_path song mbid
    let jsonP := json_path song mbid
    if fsHas fs jpgP || fsHas fs jsonP then (fs, [Event.queueCall mbid reason])
    else
      let fs1 :=
        if env.ffmpegOk jpgP && env.ffmpegProduced jpgP then fsWrite fs jpgP FileData.image
        else fs
      let meta : Sidecar :=
        { reason := reason
          mbid := mbid
          artist := artist
          album := album
          title := title
          trackno := trackno
          date := date
          duration_secs := song.duration.getD 0
          source_path := audio_path song
          added_at := env.now }
      let fs2 := if env.writeOk then fsWrite fs1 jsonP (FileData.sidecar meta) else fs1
      (fs2, [Event.queueCall mbid reason, Event.ffmpegRun (audio_path song) jpgP])

/-- The Cover Art Archive URL built by `get_album_art_url`:
`https://coverartarchive.org/{record_type}/{id}/front-250`. -/
def caa_url (record_type : RecordType) (id : String) : String :=
  "https://coverartarchive.org/" ++ recordTypeStr record_type ++ "/" ++ id ++ "/front-250"

/-- The `let id = ...` block of `get_album_art_url` (lines 158-169): take the
cached record out of the cache (`HashMap::remove`) on a hit; otherwise look
the release up by the song's MusicBrainzReleaseId tag when present, else
search by artist and album, tagging a search hit as a ReleaseGroup. Returns
the resolved record (or the propagated search panic), the cache as left by
this step, and the trace. -/
def resolve_id (env : Env) (cache : Cache) (song : Song)
    (cache_key : String × String) :
    Except String (Option (String × RecordType)) × Cache × List Event :=
  match cacheFind cache cache_key with
  | some v => (Except.ok (some v), cacheErase cache cache_key, [])
  | none =>
    match try_get_first_tag (song.tags Tag.MusicBrainzReleaseId) with
    | some release_id =>
      let r := get_record_id env release_id
      (Except.ok r.1, cache, r.2)
    | none =>
      let r := find_release_group_id env cache_key.1 cache_key.2
      (r.1.map (fun o => o.map (fun i => (i, RecordType.ReleaseGroup))), cache, r.2)

/-- `AlbumArtClient::get_album_art_url`: compute the cache key (no key: done,
nothing happens); resolve a record via cache, id lookup or search; on a
resolved record, build the archive URL, store the record in the cache, HEAD
the URL, and either return it (2xx) or queue a `missing_caa` entry whose
mbid is re-read from the song's tag; on no record, queue a `no_mb_match`
entry. A panic in the search path propagates as `Except.error`. Returns
(result, cache, filesystem, trace). -/
def get_album_art_url (env : Env) (cache : Cache) (fs : Fs) (song : Song) :
    Except String (Option String) × Cache × Fs × List Event :=
  match get_cache_key song with
  | none => (Except.ok none, cache, fs, [])
  | some cache_key =>
    match resolve_id env cache song cache_key with
    | (Except.error e, cache1, ev) => (Except.error e, cache1, fs, ev)
    | (Except.ok none, cache1, ev) =>
      let q := queue_missing_mb_entry env fs song none "no_mb_match"
      (Except.ok none, cache1, q.1, ev ++ q.2)
    | (Except.ok (some (id, record_type)), cache1, ev) =>
      let url := caa_url record_type id
      let cache2 := cacheInsert cache1 cache_key (id, record_type)
      let coverExists := ((env.probeResp url).map statusIsSuccess).getD false
      if coverExists then
        (Except.ok (some url), cache2, fs, ev ++ [Event.probe url])
      else
        let mbid_opt := try_get_first_tag (song.tags Tag.MusicBrainzReleaseId)
        let q := queue_missing_mb_entry env fs song mbid_opt "missing_caa"
        (Except.ok none, cache2, q.1, ev ++ [Event.probe url] ++ q.2)

/-! ### Fixtures used by the witnesses -/

/-- An environment in which every network call fails to connect and the
filesystem and clock behave normally. -/
def env0 : Env :=
  { lookupResp := fun _ => none
    searchResp := fun _ _ => none
    probeResp := fun _ => none
    mkdirOk := true
    writeOk := true
    ffmpegOk := fun _ => false
    ffmpegProduced := fun _ => false
    now := "2025-01-01T00:00:00+00:00" }

/-- A song with an artist but no album tag: it yields no cache key. -/
def songNoAlbum : Song :=
  { tags := fun t => match t with
      | Tag.Artist => some ["The Artist"]
      | _ => none
    url := "a.flac"
    duration := none }

/-! ### C1 -/

/-- C1: for every song whose tags yield no cache key (album-artist and
artist both absent, or album absent), `get_album_art_url` returns none,
leaves cache and filesystem untouched, and performs no external event at
all — in particular no lookup, search or probe and no entry into
`queue_missing_mb_entry`. -/
theorem no_cache_key_no_effects (env : Env) (cache : Cache) (fs : Fs) (song : Song)
    (h : (try_get_first_tag (song.tags Tag.AlbumArtist) = none ∧
          try_get_first_tag (song.tags Tag.Artist) = none) ∨
         try_get_first_tag (song.tags Tag.Album) = none) :
    get_album_art_url env cache fs song = (Except.ok none, cache, fs, ([] : List Event)) := by
  have hk : get_cache_key song = none := by
    unfold get_cache_key
    rcases h with ⟨h1, h2⟩ | h3
    · rw [h1, h2]
      cases try_get_first_tag (song.tags Tag.Album) <;> rfl
    · rw [h3]
      cases (try_get_first_tag (song.tags Tag.AlbumArtist)).or
        (try_get_first_tag (song.tags Tag.Artist)) <;> rfl
  unfold get_album_art_url
  rw [hk]

/-- Witness for C1 at a concrete song missing its album tag: the hypothesis
holds by evaluation and the call is the identity on cache and filesystem
with an empty trace. -/
theorem no_cache_key_no_effects_witness :
    try_get_first_tag (songNoAlbum.tags Tag.Album) = none ∧
    get_album_art_url env0 [] [] songNoAlbum = (Except.ok none, [], [], ([] : List Event)) :=
  ⟨rfl, no_cache_key_no_effects env0 [] [] songNoAlbum (Or.inr rfl)⟩

/-! ### Helper lemmas shared by the claim theorems -/

/-- The sidecar record built by `queue_missing_mb_entry` (the `json!` body). -/
def queue_sidecar (env : Env) (song : Song) (mbid : Option String) (reason : String) : Sidecar :=
  { reason := reason
    mbid := mbid
    artist := (try_get_first_tag (song.tags Tag.Artist)).getD ""
    album := (try_get_first_tag (song.tags Tag.Album)).getD ""
    title := (try_get_first_tag (song.tags Tag.Title)).getD ""
    trackno := (try_get_first_tag (song.tags Tag.Track)).getD ""
    date := (try_get_first_tag (song.tags Tag.Date)).getD ""
    duration_secs := song.duration.getD 0
    source_path := audio_path song
    added_at := env.now }

theorem queue_spec (env : Env) (fs : Fs) (song : Song) (mbid : Option String) (reason : String) :
    queue_missing_mb_entry env fs song mbid reason =
      if !env.mkdirOk then (fs, [Event.queueCall mbid reason])
      else if fsHas fs (jpg_path song mbid) || fsHas fs (json_path song mbid) then
        (fs, [Event.queueCall mbid reason])
      else
        (let fs1 :=
           if env.ffmpegOk (jpg_path song mbid) && env.ffmpegProduced (jpg_path song mbid) then
             fsWrite fs (jpg_path song mbid) FileData.image
           else fs
         (if env.writeOk then
            fsWrite fs1 (json_path song mbid) (FileData.sidecar (queue_sidecar env song mbid reason))
          else fs1,
          [Event.queueCall mbid reason, Event.ffmpegRun (audio_path song) (jpg_path song mbid)])) := by
  cases hm : env.mkdirOk <;>
    cases hf : fsHas fs (jpg_path song mbid) || fsHas fs (json_path song mbid) <;>
      cases hw : env.writeOk <;>
        cases he : env.ffmpegOk (jpg_path song mbid) && env.ffmpegProduced (jpg_path song mbid) <;>
          simp [queue_missing_mb_entry, queue_sidecar, hm, hf, hw, he]

theorem queue_events_shape (env : Env) (fs : Fs) (song : Song) (mbid : Option String)
    (reason : String) :
    (queue_missing_mb_entry env fs song mbid reason).2 = [Event.queueCall mbid reason] ∨
    (queue_missing_mb_entry env fs song mbid reason).2 =
      [Event.queueCall mbid reason, Event.ffmpegRun (audio_path song) (jpg_path song mbid)] := by
  rw [queue_spec]
  cases hm : env.mkdirOk <;>
    cases hf : fsHas fs (jpg_path song mbid) || fsHas fs (json_path song mbid) <;>
      simp [hm, hf]

theorem fsHas_write_self (fs : Fs) (p : String) (d : FileData) :
    fsHas (fsWrite fs p d) p = true := by
  simp [fsHas, fsWrite]

theorem fsFind_write_self (fs : Fs) (p : String) (d : FileData) :
    fsFind (fsWrite fs p d) p = some d := by
  simp [fsFind, fsWrite]

theorem cacheFind_insert (c : Cache) (k : String × String) (v : String × RecordType) :
    cacheFind (cacheInsert c k v) k = some v := by
  simp [cacheFind, cacheInsert]

/-- Reduction of `get_album_art_url` once the resolution step produced a
record: the archive URL is probed and, depending on the probe, either
returned or a `missing_caa` entry is queued with the tag-derived mbid; the
record is stored in the cache in both cases. -/
theorem resolved_branch (env : Env) (cache : Cache) (fs : Fs) (song : Song)
    (ck : String × String) (id : String) (ty : RecordType) (c1 : Cache) (ev : List Event)
    (hck : get_cache_key song = some ck)
    (hres : resolve_id env cache song ck = (Except.ok (some (id, ty)), c1, ev)) :
    get_album_art_url env cache fs song =
      if ((env.probeResp (caa_url ty id)).map statusIsSuccess).getD false then
        (Except.ok (some (caa_url ty id)), cacheInsert c1 ck (id, ty), fs,
          ev ++ [Event.probe (caa_url ty id)])
      else
        (Except.ok none, cacheInsert c1 ck (id, ty),
          (queue_missing_mb_entry env fs song
            (try_get_first_tag (song.tags Tag.MusicBrainzReleaseId)) "missing_caa").1,
          ev ++ [Event.probe (caa_url ty id)] ++
            (queue_missing_mb_entry env fs song
              (try_get_first_tag (song.tags Tag.MusicBrainzReleaseId)) "missing_caa").2) := by
  simp only [get_album_art_url, hck, hres]

/-- Reduction of `get_album_art_url` when the resolution step found no
record: a `no_mb_match` entry with no mbid is queued. -/
theorem none_branch (env : Env) (cache : Cache) (fs : Fs) (song : Song)
    (ck : String × String) (c1 : Cache) (ev : List Event)
    (hck : get_cache_key song = some ck)
    (hres : resolve_id env cache song ck = (Except.ok none, c1, ev)) :
    get_album_art_url env cache fs song =
      (Except.ok none, c1, (queue_missing_mb_entry env fs song none "no_mb_match").1,
        ev ++ (queue_missing_mb_entry env fs song none "no_mb_match").2) := by
  simp only [get_album_art_url, hck, hres]

/-- Reduction of `get_album_art_url` when the resolution step aborted
(panic in the search path): the abort propagates, nothing is queued. -/
theorem error_branch (env : Env) (cache : Cache) (fs : Fs) (song : Song)
    (ck : String × String) (e : String) (c1 : Cache) (ev : List Event)
    (hck : get_cache_key song = some ck)
    (hres : resolve_id env cache song ck = (Except.error e, c1, ev)) :
    get_album_art_url env cache fs song = (Except.error e, c1, fs, ev) := by
  simp only [get_album_art_url, hck, hres]

/-- When the resolution step does not produce a record, it leaves the cache
untouched (the cache is only consumed on a hit, and a hit always produces a
record). -/
theorem resolve_id_fail_cache (env : Env) (cache : Cache) (song : Song)
    (ck : String × String) :
    ((resolve_id env cache song ck).1 = Except.ok none →
      (resolve_id env cache song ck).2.1 = cache) ∧
    (∀ e, (resolve_id env cache song ck).1 = Except.error e →
      (resolve_id env cache song ck).2.1 = cache) := by
  cases hq : cacheFind cache ck with
  | some v => simp [resolve_id, hq]
  | none =>
    cases ht : try_get_first_tag (song.tags Tag.MusicBrainzReleaseId) with
    | some rid => simp [resolve_id, hq, ht]
    | none => simp [resolve_id, hq, ht]

/-! ### C2 -/

/-- C2: the cache gains entries only from resolutions that produced a
record. When there is no cache key or the resolution step yields no record
(or aborts), the cache leaves the call exactly as it entered it — never an
entry for a failed lookup. When the resolution step yields a record, the
final cache maps the key to that record, for every probe behaviour
(`env.probeResp` is unconstrained, so the entry is present in particular
when the probe fails). -/
theorem cache_entry_only_from_resolution (env : Env) (cache : Cache) (fs : Fs) (song : Song) :
    (get_cache_key song = none → (get_album_art_url env cache fs song).2.1 = cache)
  ∧ (∀ ck ev, get_cache_key song = some ck →
      resolve_id env cache song ck =
        (Except.ok none, (resolve_id env cache song ck).2.1, ev) →
      (get_album_art_url env cache fs song).2.1 = cache)
  ∧ (∀ ck e ev, get_cache_key song = some ck →
      resolve_id env cache song ck =
        (Except.error e, (resolve_id env cache song ck).2.1, ev) →
      (get_album_art_url env cache fs song).2.1 = cache)
  ∧ (∀ ck id ty c1 ev, get_cache_key song = some ck →
      resolve_id env cache song ck = (Except.ok (some (id, ty)), c1, ev) →
      cacheFind (get_album_art_url env cache fs song).2.1 ck = some (id, ty)) := by
  refine ⟨?_, ?_, ?_, ?_⟩
  · intro h
    simp only [get_album_art_url, h]
  · intro ck ev hck hres
    have h1 : (resolve_id env cache song ck).1 = Except.ok none := by rw [hres]
    have hc : (resolve_id env cache song ck).2.1 = cache :=
      (resolve_id_fail_cache env cache song ck).1 h1
    rw [none_branch env cache fs song ck (resolve_id env cache song ck).2.1 ev hck
      (by rw [hres, hc])]
    exact hc
  · intro ck e ev hck hres
    have h1 : (resolve_id env cache song ck).1 = Except.error e := by rw [hres]
    have hc : (resolve_id env cache song ck).2.1 = cache :=
      (resolve_id_fail_cache env cache song ck).2 e h1
    rw [error_branch env cache fs song ck e (resolve_id env cache song ck).2.1 ev hck
      (by rw [hres, hc])]
    exact hc
  · intro ck id ty c1 ev hck hres
    rw [resolved_branch env cache fs song ck id ty c1 ev hck hres]
    cases hp : ((env.probeResp (caa_url ty id)).map statusIsSuccess).getD false <;>
      simp [hp, cacheFind_insert]

/-- A song with artist and album tags (and no explicit release id). -/
def songAB : Song :=
  { tags := fun t => match t with
      | Tag.Artist => some ["A"]
      | Tag.Album => some ["B"]
      | _ => none
    url := "x.flac"
    duration := some 42 }

/-- An environment in which the search for ("A", "B") finds the
release-group "G9", and every archive probe fails with a 404. -/
def envSearch : Env :=
  { lookupResp := fun _ => none
    searchResp := fun a b =>
      if a == "A" && b == "B" then some (200, some ⟨[⟨"G9"⟩]⟩) else none
    probeResp := fun _ => some 404
    mkdirOk := true
    writeOk := true
    ffmpegOk := fun _ => false
    ffmpegProduced := fun _ => false
    now := "2025-01-01T00:00:00+00:00" }

/-- Witness for C2: with no cache key the cache is unchanged; with a failed
search the cache is unchanged; with a successful search and a failing probe
the resolved record is nevertheless stored under the key. -/
theorem cache_entry_only_from_resolution_witness :
    (get_album_art_url env0 [] [] songNoAlbum).2.1 = ([] : Cache) ∧
    (get_album_art_url env0 [] [] songAB).2.1 = ([] : Cache) ∧
    cacheFind (get_album_art_url envSearch [] [] songAB).2.1 ("A", "B") =
      some ("G9", RecordType.ReleaseGroup) :=
  ⟨(cache_entry_only_from_resolution env0 [] [] songNoAlbum).1 rfl,
   (cache_entry_only_from_resolution env0 [] [] songAB).2.1 ("A", "B") [Event.search "A" "B"]
     rfl rfl,
   (cache_entry_only_from_resolution envSearch [] [] songAB).2.2.2 ("A", "B") "G9"
     RecordType.ReleaseGroup [] [Event.search "A" "B"] rfl rfl⟩

/-! ### C3 -/

/-- C3: `get_record_id` is a soft-failing lookup. A connection error, a
non-success status, or a 200 response with a malformed payload all give
`none`; a well-formed 200 response gives the release itself (kind Release)
when the cover-art-archive front flag is set, and its release-group (kind
ReleaseGroup) otherwise. -/
theorem get_record_id_cases (env : Env) (rid : String) :
    (env.lookupResp rid = none → (get_record_id env rid).1 = none)
  ∧ (∀ s b, env.lookupResp rid = some (s, b) → statusIsSuccess s = false →
      (get_record_id env rid).1 = none)
  ∧ (env.lookupResp rid = some (200, none) → (get_record_id env rid).1 = none)
  ∧ (∀ rel, env.lookupResp rid = some (200, some rel) →
      rel.cover_art_archive.front = true →
      (get_record_id env rid).1 = some (rel.id, RecordType.Release))
  ∧ (∀ rel, env.lookupResp rid = some (200, some rel) →
      rel.cover_art_archive.front = false →
      (get_record_id env rid).1 = some (rel.release_group.id, RecordType.ReleaseGroup)) := by
  refine ⟨?_, ?_, ?_, ?_, ?_⟩
  · intro h
    simp [get_record_id, h]
  · intro s b h hs
    have hne : s ≠ 200 := by
      intro he
      subst he
      simp [statusIsSuccess] at hs
    simp [get_record_id, h, hne]
  · intro h
    simp [get_record_id, h]
  · intro rel h hf
    simp [get_record_id, h, hf]
  · intro rel h hf
    simp [get_record_id, h, hf]

/-- A release whose cover-art-archive front flag is set. -/
def relFront : Release :=
  { id := "R1"
    release_group := { id := "G1" }
    cover_art_archive := { front := true } }

/-- A release without a confirmed front cover. -/
def relNoFront : Release :=
  { id := "R2"
    release_group := { id := "G2" }
    cover_art_archive := { front := false } }

/-- An environment whose lookup answers differ per release id: a connection
error, a 503, a malformed 200, and well-formed 200 responses with the front
flag set and cleared. -/
def envLookup : Env :=
  { lookupResp := fun r =>
      if r == "conn" then none
      else if r == "bad" then some (503, none)
      else if r == "mal" then some (200, none)
      else if r == "front" then some (200, some relFront)
      else some (200, some relNoFront)
    searchResp := fun _ _ => none
    probeResp := fun _ => none
    mkdirOk := true
    writeOk := true
    ffmpegOk := fun _ => false
    ffmpegProduced := fun _ => false
    now := "2025-01-01T00:00:00+00:00" }

/-- Witness for C3 on all five cases of `envLookup`. -/
theorem get_record_id_cases_witness :
    (get_record_id envLookup "conn").1 = none ∧
    (get_record_id envLookup "bad").1 = none ∧
    (get_record_id envLookup "mal").1 = none ∧
    (get_record_id envLookup "front").1 = some ("R1", RecordType.Release) ∧
    (get_record_id envLookup "nofront").1 = some ("G2", RecordType.ReleaseGroup) :=
  ⟨(get_record_id_cases envLookup "conn").1 rfl,
   (get_record_id_cases envLookup "bad").2.1 503 none rfl rfl,
   (get_record_id_cases envLookup "mal").2.2.1 rfl,
   (get_record_id_cases envLookup "front").2.2.2.1 relFront rfl (by rfl),
   (get_record_id_cases envLookup "nofront").2.2.2.2 relNoFront rfl (by rfl)⟩

/-! ### C4 -/

/-- C4: on the search fallback, a connection error or a non-200 status is
the recoverable answer "none found", while a 200 response whose body does
not deserialize hits the `.expect` and aborts the whole call with the
panic message (modelled as `Except.error`), rather than returning a
recoverable none. -/
theorem find_release_group_id_cases (env : Env) (artist album : String) :
    (env.searchResp artist album = none →
      (find_release_group_id env artist album).1 = Except.ok none)
  ∧ (∀ s b, env.searchResp artist album = some (s, b) → s ≠ 200 →
      (find_release_group_id env artist album).1 = Except.ok none)
  ∧ (env.searchResp artist album = some (200, none) →
      (find_release_group_id env artist album).1 =
        Except.error "Received response from MusicBrainz in unexpected format") := by
  refine ⟨?_, ?_, ?_⟩
  · intro h
    simp [find_release_group_id, h]
  · intro s b h hne
    simp [find_release_group_id, h, hne]
  · intro h
    simp [find_release_group_id, h]

/-- An environment whose search answers differ per artist: a connection
error, a 500, and a malformed 200. -/
def envSearchCases : Env :=
  { lookupResp := fun _ => none
    searchResp := fun a _ =>
      if a == "conn" then none
      else if a == "bad" then some (500, none)
      else some (200, none)
    probeResp := fun _ => none
    mkdirOk := true
    writeOk := true
    ffmpegOk := fun _ => false
    ffmpegProduced := fun _ => false
    now := "2025-01-01T00:00:00+00:00" }

/-- Witness for C4 on all three cases of `envSearchCases`. -/
theorem find_release_group_id_cases_witness :
    (find_release_group_id envSearchCases "conn" "B").1 = Except.ok none ∧
    (find_release_group_id envSearchCases "bad" "B").1 = Except.ok none ∧
    (find_release_group_id envSearchCases "mal" "B").1 =
      Except.error "Received response from MusicBrainz in unexpected format" :=
  ⟨(find_release_group_id_cases envSearchCases "conn" "B").1 rfl,
   (find_release_group_id_cases envSearchCases "bad" "B").2.1 500 none rfl (by decide),
   (find_release_group_id_cases envSearchCases "mal" "B").2.2 rfl⟩

/-! ### C5 -/

/-- C5: once a record (id, kind) is resolved, the probed URL is exactly
`https://coverartarchive.org/<kind-segment>/<id>/front-250` with segment
"release" for Release and "release-group" for ReleaseGroup; the URL is
returned iff the HEAD response has a success (2xx) status, and a non-success
status and a network failure both collapse to the same "no art" outcome. -/
theorem probe_url_and_existence (env : Env) (cache : Cache) (fs : Fs) (song : Song)
    (ck : String × String) (id : String) (ty : RecordType) (c1 : Cache) (ev : List Event)
    (hck : get_cache_key song = some ck)
    (hres : resolve_id env cache song ck = (Except.ok (some (id, ty)), c1, ev)) :
    (recordTypeStr RecordType.Release = "release" ∧
     recordTypeStr RecordType.ReleaseGroup = "release-group")
  ∧ caa_url ty id =
      "https://coverartarchive.org/" ++ recordTypeStr ty ++ "/" ++ id ++ "/front-250"
  ∧ Event.probe (caa_url ty id) ∈ (get_album_art_url env cache fs song).2.2.2
  ∧ ((get_album_art_url env cache fs song).1 = Except.ok (some (caa_url ty id)) ↔
      ∃ s, env.probeResp (caa_url ty id) = some s ∧ statusIsSuccess s = true)
  ∧ (env.probeResp (caa_url ty id) = none →
      (get_album_art_url env cache fs song).1 = Except.ok none)
  ∧ (∀ s, env.probeResp (caa_url ty id) = some s → statusIsSuccess s = false →
      (get_album_art_url env cache fs song).1 = Except.ok none) := by
  have hb := resolved_branch env cache fs song ck id ty c1 ev hck hres
  refine ⟨⟨rfl, rfl⟩, rfl, ?_, ?_, ?_, ?_⟩
  · rw [hb]
    cases hp : env.probeResp (caa_url ty id) with
    | none => simp [hp]
    | some s => cases hs : statusIsSuccess s <;> simp [hp, hs]
  · rw [hb]
    cases hp : env.probeResp (caa_url ty id) with
    | none => simp [hp]
    | some s => cases hs : statusIsSuccess s <;> simp [hp, hs]
  · intro hp
    rw [hb]
    simp [hp]
  · intro s hp hs
    rw [hb]
    simp [hp, hs]

/-- Like `envSearch`, but every archive probe answers 200. -/
def envProbeOk : Env :=
  { lookupResp := fun _ => none
    searchResp := fun a b =>
      if a == "A" && b == "B" then some (200, some ⟨[⟨"G9"⟩]⟩) else none
    probeResp := fun _ => some 200
    mkdirOk := true
    writeOk := true
    ffmpegOk := fun _ => false
    ffmpegProduced := fun _ => false
    now := "2025-01-01T00:00:00+00:00" }

/-- Witness for C5: the URL built for the record found for `songAB`, the
returned URL under a 200 probe, and the none result under a 404 probe. -/
theorem probe_url_and_existence_witness :
    caa_url RecordType.ReleaseGroup "G9" =
      "https://coverartarchive.org/release-group/G9/front-250" ∧
    (get_album_art_url envProbeOk [] [] songAB).1 =
      Except.ok (some (caa_url RecordType.ReleaseGroup "G9")) ∧
    (get_album_art_url envSearch [] [] songAB).1 = Except.ok none :=
  ⟨rfl,
   (probe_url_and_existence envProbeOk [] [] songAB ("A", "B") "G9" RecordType.ReleaseGroup
     [] [Event.search "A" "B"] rfl rfl).2.2.2.1.mpr ⟨200, rfl, by decide⟩,
   (probe_url_and_existence envSearch [] [] songAB ("A", "B") "G9" RecordType.ReleaseGroup
     [] [Event.search "A" "B"] rfl rfl).2.2.2.2.2 404 rfl (by decide)⟩

/-! ### C6 -/

/-- C6: the queue operation is idempotent on its derived key. If the image
or sidecar file already exists at the key's paths the call is a complete
no-op (same filesystem, no ffmpeg run, no sidecar write); and (with the
queue directory creatable and the sidecar write succeeding) after one call
one of the two files exists, so an immediately repeated call with the same
derived key changes nothing and never invokes the extraction tool. -/
theorem queue_idempotent (env : Env) (fs : Fs) (song : Song) (mbid : Option String)
    (reason : String) (hm : env.mkdirOk = true) (hw : env.writeOk = true) :
    (fsHas fs (jpg_path song mbid) = true ∨ fsHas fs (json_path song mbid) = true →
      queue_missing_mb_entry env fs song mbid reason = (fs, [Event.queueCall mbid reason]))
  ∧ (fsHas (queue_missing_mb_entry env fs song mbid reason).1 (jpg_path song mbid) = true ∨
     fsHas (queue_missing_mb_entry env fs song mbid reason).1 (json_path song mbid) = true)
  ∧ queue_missing_mb_entry env (queue_missing_mb_entry env fs song mbid reason).1
      song mbid reason =
      ((queue_missing_mb_entry env fs song mbid reason).1,
       [Event.queueCall mbid reason]) := by
  have ha : ∀ g : Fs,
      (fsHas g (jpg_path song mbid) = true ∨ fsHas g (json_path song mbid) = true) →
      queue_missing_mb_entry env g song mbid reason = (g, [Event.queueCall mbid reason]) := by
    intro g hg
    rw [queue_spec]
    have hcond : (fsHas g (jpg_path song mbid) || fsHas g (json_path song mbid)) = true := by
      rcases hg with h | h <;> simp [h]
    simp [hm, hcond]
  have hex : fsHas (queue_missing_mb_entry env fs song mbid reason).1 (jpg_path song mbid) = true ∨
      fsHas (queue_missing_mb_entry env fs song mbid reason).1 (json_path song mbid) = true := by
    rw [queue_spec]
    cases hf : fsHas fs (jpg_path song mbid) || fsHas fs (json_path song mbid) with
    | true =>
      simp only [hm, Bool.not_true, Bool.false_eq_true, if_false, hf, if_true]
      exact (Bool.or_eq_true _ _).mp hf
    | false =>
      simp only [hm, Bool.not_true, Bool.false_eq_true, if_false, hf, hw, if_true]
      exact Or.inr (fsHas_write_self _ _ _)
  exact ⟨ha fs, hex, ha _ hex⟩

/-- Witness for C6: in `envSearch` (directory creatable, writes succeed),
queuing `songAB` twice under its derived key is a no-op the second time:
the second call returns the first call's filesystem unchanged and performs
no ffmpeg run, and a pre-existing sidecar makes the call a no-op. -/
theorem queue_idempotent_witness :
    envSearch.mkdirOk = true ∧ envSearch.writeOk = true ∧
    fsHas [(json_path songAB none, FileData.sidecar (queue_sidecar envSearch songAB none "r"))]
        (json_path songAB none) = true ∧
    queue_missing_mb_entry envSearch
        [(json_path songAB none, FileData.sidecar (queue_sidecar envSearch songAB none "r"))]
        songAB none "r" =
      ([(json_path songAB none, FileData.sidecar (queue_sidecar envSearch songAB none "r"))],
       [Event.queueCall none "r"]) ∧
    queue_missing_mb_entry envSearch
        (queue_missing_mb_entry envSearch [] songAB none "no_mb_match").1
        songAB none "no_mb_match" =
      ((queue_missing_mb_entry envSearch [] songAB none "no_mb_match").1,
       [Event.queueCall none "no_mb_match"]) :=
  ⟨rfl, rfl, by decide,
   (queue_idempotent envSearch
     [(json_path songAB none, FileData.sidecar (queue_sidecar envSearch songAB none "r"))]
     songAB none "r" rfl rfl).1 (Or.inr (by decide)),
   (queue_idempotent envSearch [] songAB none "no_mb_match" rfl rfl).2.2⟩

/-! ### C8 -/

/-- C8: when a record was resolved (from the cache, the id lookup or the
search — `hres` covers all three) but the archive probe found no art, the
mbid handed to `queue_missing_mb_entry` is re-read from the song's
MusicBrainzReleaseId tag, not taken from the resolved record `(id, ty)`. -/
theorem missing_caa_mbid_rederived (env : Env) (cache : Cache) (fs : Fs) (song : Song)
    (ck : String × String) (id : String) (ty : RecordType) (c1 : Cache) (ev : List Event)
    (hck : get_cache_key song = some ck)
    (hres : resolve_id env cache song ck = (Except.ok (some (id, ty)), c1, ev))
    (hp : env.probeResp (caa_url ty id) = none ∨
          ∃ s, env.probeResp (caa_url ty id) = some s ∧ statusIsSuccess s = false) :
    Event.queueCall (try_get_first_tag (song.tags Tag.MusicBrainzReleaseId)) "missing_caa"
      ∈ (get_album_art_url env cache fs song).2.2.2 := by
  have hb := resolved_branch env cache fs song ck id ty c1 ev hck hres
  have hcond : ((env.probeResp (caa_url ty id)).map statusIsSuccess).getD false = false := by
    rcases hp with h | ⟨s, h, hs⟩
    · simp [h]
    · simp [h, hs]
  rw [hb]
  rcases queue_events_shape env fs song (try_get_first_tag (song.tags Tag.MusicBrainzReleaseId))
      "missing_caa" with hq | hq <;> simp [hcond, hq]

/-- `songAB` with an explicit MusicBrainz release id tag "RX". -/
def songABmb : Song :=
  { tags := fun t => match t with
      | Tag.Artist => some ["A"]
      | Tag.Album => some ["B"]
      | Tag.MusicBrainzReleaseId => some ["RX"]
      | _ => none
    url := "x.flac"
    duration := none }

/-- Witness for C8: the record probed comes from the cache and is "CACHED",
yet the queued mbid is the tag value "RX". -/
theorem missing_caa_mbid_rederived_witness :
    Event.queueCall (some "RX") "missing_caa" ∈
      (get_album_art_url envSearch [(("A", "B"), ("CACHED", RecordType.Release))]
        [] songABmb).2.2.2 :=
  missing_caa_mbid_rederived envSearch [(("A", "B"), ("CACHED", RecordType.Release))] []
    songABmb ("A", "B") "CACHED" RecordType.Release [] [] rfl rfl
    (Or.inr ⟨404, rfl, by decide⟩)

/-! ### C9 -/

/-- C9: on a cache hit (a record is stored for the song's key), the call
performs no identifier lookup and no search — only the archive probe — and
the hit-path's remove-then-reinsert leaves the cached entry in place under
the same key afterwards. -/
theorem cache_hit_probe_only (env : Env) (cache : Cache) (fs : Fs) (song : Song)
    (ck : String × String) (v : String × RecordType)
    (hck : get_cache_key song = some ck)
    (hhit : cacheFind cache ck = some v) :
    (∀ r, Event.lookup r ∉ (get_album_art_url env cache fs song).2.2.2)
  ∧ (∀ a b, Event.search a b ∉ (get_album_art_url env cache fs song).2.2.2)
  ∧ Event.probe (caa_url v.2 v.1) ∈ (get_album_art_url env cache fs song).2.2.2
  ∧ cacheFind (get_album_art_url env cache fs song).2.1 ck = some v := by
  have hres : resolve_id env cache song ck =
      (Except.ok (some (v.1, v.2)), cacheErase cache ck, []) := by
    simp [resolve_id, hhit]
  have hb := resolved_branch env cache fs song ck v.1 v.2 (cacheErase cache ck) [] hck hres
  rw [hb]
  rcases queue_events_shape env fs song (try_get_first_tag (song.tags Tag.MusicBrainzReleaseId))
      "missing_caa" with hq | hq <;>
    cases hp : ((env.probeResp (caa_url v.2 v.1)).map statusIsSuccess).getD false <;>
      refine ⟨fun r => ?_, fun a b => ?_, ?_, ?_⟩ <;>
        simp [hq, hp, cacheFind_insert]

/-- Witness for C9: with ("A", "B") ↦ ("G7", Release) already cached, the
call on `songAB` does no lookup and no search, probes the release URL for
"G7", and keeps the entry cached. -/
theorem cache_hit_probe_only_witness :
    cacheFind [(("A", "B"), ("G7", RecordType.Release))] ("A", "B") =
      some ("G7", RecordType.Release) ∧
    Event.lookup "G7" ∉
      (get_album_art_url envSearch [(("A", "B"), ("G7", RecordType.Release))] [] songAB).2.2.2 ∧
    Event.search "A" "B" ∉
      (get_album_art_url envSearch [(("A", "B"), ("G7", RecordType.Release))] [] songAB).2.2.2 ∧
    Event.probe (caa_url RecordType.Release "G7") ∈
      (get_album_art_url envSearch [(("A", "B"), ("G7", RecordType.Release))] [] songAB).2.2.2 ∧
    cacheFind (get_album_art_url envSearch [(("A", "B"), ("G7", RecordType.Release))] []
      songAB).2.1 ("A", "B") = some ("G7", RecordType.Release) := by
  have h := cache_hit_probe_only envSearch [(("A", "B"), ("G7", RecordType.Release))] [] songAB
    ("A", "B") ("G7", RecordType.Release) rfl rfl
  exact ⟨rfl, h.1 "G7", h.2.1 "A" "B", h.2.2.1, h.2.2.2⟩

/-! ### C10 -/

/-- C10: the no-mbid queue key is built from the plain Artist and Title
tags only — two songs agreeing on those two tags get the same key whatever
their album-artist is — an absent Artist (resp. Title) tag defaults to the
empty string, which sanitizes to "unknown", giving keys of the form
`nombid_unknown_<title>` (resp. `nombid_<artist>_unknown`); and the sidecar
written for such a track carries the defaulted (possibly empty) Artist tag
as its artist field. -/
theorem queue_key_plain_artist (env : Env) (fs : Fs) (song : Song) (reason : String)
    (hm : env.mkdirOk = true) (hw : env.writeOk = true)
    (h1 : fsHas fs (jpg_path song none) = false)
    (h2 : fsHas fs (json_path song none) = false) :
    queue_key song none =
      "nombid_" ++ sanitize_for_filename ((try_get_first_tag (song.tags Tag.Artist)).getD "")
        ++ "_" ++ sanitize_for_filename ((try_get_first_tag (song.tags Tag.Title)).getD "")
  ∧ (∀ song2 : Song, song2.tags Tag.Artist = song.tags Tag.Artist →
      song2.tags Tag.Title = song.tags Tag.Title →
      queue_key song2 none = queue_key song none)
  ∧ fsFind (queue_missing_mb_entry env fs song none reason).1 (json_path song none) =
      some (FileData.sidecar (queue_sidecar env song none reason))
  ∧ (queue_sidecar env song none reason).artist =
      (try_get_first_tag (song.tags Tag.Artist)).getD ""
  ∧ (try_get_first_tag (song.tags Tag.Artist) = none →
      queue_key song none = "nombid_unknown_" ++
        sanitize_for_filename ((try_get_first_tag (song.tags Tag.Title)).getD "") ∧
      (queue_sidecar env song none reason).artist = "")
  ∧ (try_get_first_tag (song.tags Tag.Title) = none →
      queue_key song none = "nombid_" ++
        sanitize_for_filename ((try_get_first_tag (song.tags Tag.Artist)).getD "")
        ++ "_unknown") := by
  have hkey : queue_key song none =
      "nombid_" ++ sanitize_for_filename ((try_get_first_tag (song.tags Tag.Artist)).getD "")
        ++ "_" ++ sanitize_for_filename ((try_get_first_tag (song.tags Tag.Title)).getD "") :=
    rfl
  refine ⟨hkey, ?_, ?_, rfl, ?_, ?_⟩
  · intro song2 ha ht
    simp [queue_key, ha, ht]
  · rw [queue_spec]
    simp only [hm, Bool.not_true, Bool.false_eq_true, if_false, h1, h2, Bool.or_false,
      hw, if_true]
    exact fsFind_write_self _ _ _
  · intro h
    constructor
    · rw [hkey, h]
      rfl
    · show (try_get_first_tag (song.tags Tag.Artist)).getD "" = ""
      rw [h]
      rfl
  · intro h
    rw [hkey, h, String.append_assoc]
    rfl

/-- A song with an album-artist tag but no plain artist tag. -/
def songAlbumArtistOnly : Song :=
  { tags := fun t => match t with
      | Tag.AlbumArtist => some ["AA Band"]
      | Tag.Album => some ["B"]
      | Tag.Title => some ["My Song"]
      | _ => none
    url := "y.flac"
    duration := none }

/-- Witness for C10: despite the present album-artist tag "AA Band", the
derived key is `nombid_unknown_My_Song` and the written sidecar's artist
field is empty. -/
theorem queue_key_plain_artist_witness :
    queue_key songAlbumArtistOnly none = "nombid_unknown_My_Song" ∧
    (queue_sidecar envSearch songAlbumArtistOnly none "no_mb_match").artist = "" ∧
    try_get_first_tag (songAlbumArtistOnly.tags Tag.AlbumArtist) = some "AA Band" ∧
    fsFind (queue_missing_mb_entry envSearch [] songAlbumArtistOnly none "no_mb_match").1
        (json_path songAlbumArtistOnly none) =
      some (FileData.sidecar (queue_sidecar envSearch songAlbumArtistOnly none "no_mb_match")) := by
  have h := queue_key_plain_artist envSearch [] songAlbumArtistOnly "no_mb_match" rfl rfl rfl rfl
  have h5 := h.2.2.2.2.1 rfl
  refine ⟨?_, h5.2, rfl, h.2.2.1⟩
  rw [h5.1]
  rfl

/-! ### C7 -/

theorem sanitize_step_data (out : String) (c : Char) :
    (sanitize_step out c).data = out.data ++ (sanitize_char_spec c).toList := by
  unfold sanitize_step sanitize_char_spec
  cases h1 : c.isAlphanum with
  | true => simp
  | false =>
    cases h2 : (rust_is_whitespace c || c == '-' || c == '_') with
    | true => simp
    | false => simp

theorem sanitize_fold_data (l : List Char) (acc : String) :
    (l.foldl sanitize_step acc).data = acc.data ++ l.filterMap sanitize_char_spec := by
  induction l generalizing acc with
  | nil => simp
  | cons c l ih =>
    rw [List.foldl_cons, ih, sanitize_step_data, List.filterMap_cons]
    cases h : sanitize_char_spec c <;> simp [h]

/-- The character iteration of the sanitizer refines the spec's
per-character mapping. -/
theorem sanitize_core_data (s : String) :
    (sanitize_core s).data = s.data.filterMap sanitize_char_spec := by
  have h := sanitize_fold_data s.data ""
  unfold sanitize_core
  simpa using h

/-- C7 counterexample: the claim's "returns 'unknown' exactly when the
iteration result is empty" fails in the only-if direction on the input
"unknown": the iteration result is the non-empty string "unknown" itself,
and the function returns "unknown" anyway. -/
theorem sanitize_unknown_not_exact :
    sanitize_for_filename "unknown" = "unknown" ∧
    sanitize_core "unknown" ≠ "" ∧
    "unknown".data.filterMap sanitize_char_spec ≠ [] :=
  ⟨rfl, by decide, by decide⟩

/-- C7 as amended: the sanitizer's output characters are exactly the spec's
per-character images (ASCII alphanumerics unchanged, whitespace / hyphen /
underscore to a single underscore, others dropped) when that list is
non-empty, and "unknown" when it is empty; hence every output character is
an ASCII alphanumeric or an underscore, and the output is "unknown"
whenever the iteration result is empty — but also when the iteration
result happens to be the string "unknown" itself, so "exactly when" holds
only up to that case. -/
theorem sanitize_spec_amended (s : String) :
    ((sanitize_for_filename s).data =
      if s.data.filterMap sanitize_char_spec = [] then "unknown".data
      else s.data.filterMap sanitize_char_spec)
  ∧ ((sanitize_for_filename s).data.all (fun c => c.isAlphanum || c == '_')) = true
  ∧ (s.data.filterMap sanitize_char_spec = [] → sanitize_for_filename s = "unknown")
  ∧ (sanitize_for_filename s = "unknown" →
      s.data.filterMap sanitize_char_spec = [] ∨
      s.data.filterMap sanitize_char_spec = "unknown".data) := by
  have hcore := sanitize_core_data s
  have hmain : (sanitize_for_filename s).data =
      if s.data.filterMap sanitize_char_spec = [] then "unknown".data
      else s.data.filterMap sanitize_char_spec := by
    show (if (sanitize_core s).isEmpty = true then "unknown" else sanitize_core s).data = _
    by_cases he : s.data.filterMap sanitize_char_spec = []
    · have hz : sanitize_core s = "" := String.ext (by rw [hcore, he])
      rw [hz, he, if_pos rfl]
      rfl
    · have hne : sanitize_core s ≠ "" := by
        intro hh
        apply he
        rw [← hcore, hh]
      have hie : (sanitize_core s).isEmpty = false := by
        cases hi : (sanitize_core s).isEmpty with
        | false => rfl
        | true => exact absurd ((String.isEmpty_iff _).mp hi) hne
      rw [hie, if_neg he]
      simpa using hcore
  refine ⟨hmain, ?_, ?_, ?_⟩
  · rw [hmain]
    by_cases he : s.data.filterMap sanitize_char_spec = []
    · rw [if_pos he]
      decide
    · rw [if_neg he]
      rw [List.all_eq_true]
      intro c hc
      rw [List.mem_filterMap] at hc
      obtain ⟨a, _, ha⟩ := hc
      unfold sanitize_char_spec at ha
      by_cases g1 : a.isAlphanum
      · rw [if_pos g1] at ha
        cases ha
        simp [g1]
      · rw [if_neg g1] at ha
        by_cases g2 : (rust_is_whitespace a || a == '-' || a == '_') = true
        · rw [if_pos g2] at ha
          cases ha
          decide
        · rw [if_neg g2] at ha
          cases ha
  · intro he
    have hz : sanitize_core s = "" := String.ext (by rw [hcore, he])
    show (if (sanitize_core s).isEmpty = true then "unknown" else sanitize_core s) = "unknown"
    rw [hz]
    rfl
  · intro hu
    by_cases he : s.data.filterMap sanitize_char_spec = []
    · exact Or.inl he
    · right
      rw [← hcore, ← hu, hmain, if_neg he, hcore]

/-- Witness for C7 (amended): an all-symbol input maps to "unknown" through
the empty iteration result; the input "unknown" itself also returns
"unknown" with a non-empty iteration result; and a non-ASCII whitespace
character (NBSP, in the source's Unicode White_Space class but outside
Lean's four-character `Char.isWhitespace`) maps to an underscore. -/
theorem sanitize_spec_amended_witness :
    ("!!!".data.filterMap sanitize_char_spec = [] ∧
      sanitize_for_filename "!!!" = "unknown") ∧
    (sanitize_for_filename "unknown" = "unknown" ∧
      ("unknown".data.filterMap sanitize_char_spec = [] ∨
       "unknown".data.filterMap sanitize_char_spec = "unknown".data)) ∧
    sanitize_for_filename "A\u00A0B" = "A_B" ∧
    sanitize_for_filename "\u00A0" = "_" :=
  ⟨⟨by decide, (sanitize_spec_amended "!!!").2.2.1 (by decide)⟩,
   ⟨rfl, (sanitize_spec_amended "unknown").2.2.2 rfl⟩,
   rfl, rfl⟩
